import Mathlib

/-!
Verification development for the chemLabs live-lab frontend component
(frontend/src/components/Lab.jsx). The definitions below are a shallow
embedding of that component: the pure hint/reveal lookup functions are
translated directly, and the stateful callback logic (WebSocket handlers,
polling fallback, teardown, frame cadence) is embedded as explicit step
functions over small state records, one per concern. JavaScript `null`
and `undefined` become `Option`, the JS `||` fallback on possibly-empty
strings becomes `jsOrStr`, and the single-threaded event loop becomes a
fold of a step function over a list of events.

The file is organised as definitions first, then the theorems about them.
-/

namespace ChemLabs

/-- A substance record as served by `GET /reactions/chemicals/`:
`{id, label, formula, type}` with `type` one of `"acid"`, `"base"`,
`"neutral"`. -/
structure Chemical where
  id : String
  label : String
  formula : String
  type : String
deriving DecidableEq, Repr

/-- The record returned by `getReactionHint` in Lab.jsx. -/
structure Hint where
  reacts : Bool
  icon : String
  title : String
  detail : String
  color : String
deriving DecidableEq, Repr

/-- The record returned by `buildRevealMessage` in Lab.jsx. -/
structure Reveal where
  headline : String
  body : String
  verdict : String
  color : String
deriving DecidableEq, Repr

/-- JS `a || b` on a nullable string: `null`, `undefined` and `""` are
falsy and fall through to `b`. -/
def jsOrStr (a b : Option String) : Option String :=
  match a with
  | some s => if s == "" then b else some s
  | none => b

/-- JS `a || b` on a nullable object reference: any object is truthy. -/
def jsOrChem (a b : Option Chemical) : Option Chemical :=
  match a with
  | some c => some c
  | none => b

/-- Embedding of `getReactionHint(chemType, reactionType)` (Lab.jsx).
`if (!chemType || !reactionType) return null` treats both `null` and the
empty string as falsy. -/
def getReactionHint (chemType reactionType : Option String) : Option Hint :=
  match chemType, reactionType with
  | some ct, some rt =>
    if ct == "" || rt == "" then none
    else
      let paper := if rt == "red_litmus" then "Red" else "Blue"
      let willReact :=
        (rt == "blue_litmus" && ct == "acid") || (rt == "red_litmus" && ct == "base")
      if willReact then
        let turnsTo := if rt == "blue_litmus" then "RED" else "BLUE"
        let reason :=
          if ct == "acid" then "Acids donate H⁺ ions, causing blue litmus to turn red."
          else "Bases donate OH⁻ ions, causing red litmus to turn blue."
        some
          { reacts := true
            icon := "⚗️"
            title := paper ++ " litmus paper WILL change colour"
            detail := "Tilt your hand to pour. The paper will turn " ++ turnsTo ++ ". " ++ reason
            color := if ct == "acid" then "#f87171" else "#38bdf8" }
      else
        let detail :=
          if ct == "neutral" then
            paper ++ " litmus paper does NOT change colour with a neutral substance. Neutral substances have no free H⁺ or OH⁻ ions to trigger a reaction."
          else if ct == "acid" then
            paper ++ " litmus paper does NOT change colour in the presence of an acid. Red litmus only changes colour with a base (alkali). Try Blue litmus to test acids."
          else
            paper ++ " litmus paper does NOT change colour in the presence of a base. Blue litmus only changes colour with an acid. Try Red litmus to test bases."
        some
          { reacts := false
            icon := "🔬"
            title := paper ++ " litmus paper will NOT change colour"
            detail := detail
            color := "#a3a3a3" }
  | _, _ => none

/-- Embedding of `buildRevealMessage(chemical, reactionType)` (Lab.jsx):
`if (!chemical) return null`, then a case split on the substance type
and the active litmus paper. -/
def buildRevealMessage (chemical : Option Chemical) (reactionType : Option String) : Option Reveal :=
  match chemical with
  | none => none
  | some chem =>
    let paperColor := if reactionType == some "red_litmus" then "Red" else "Blue"
    if chem.type == "neutral" then
      some
        { headline := "No Reaction Observed"
          body := "The " ++ paperColor ++ " Litmus paper did not change colour because " ++ chem.label ++ " (" ++ chem.formula ++ ") is a neutral substance — it has no acidic or basic properties to trigger a reaction."
          verdict := "NEUTRAL"
          color := "#a3a3a3" }
    else if chem.type == "acid" && reactionType == some "blue_litmus" then
      some
        { headline := "Acid Detected!"
          body := "The Blue Litmus paper turned Red because " ++ chem.label ++ " (" ++ chem.formula ++ ") is an acid. Acids donate protons (H⁺), which causes blue litmus to change colour."
          verdict := "ACID CONFIRMED"
          color := "#f87171" }
    else if chem.type == "base" && reactionType == some "red_litmus" then
      some
        { headline := "Base Detected!"
          body := "The Red Litmus paper turned Blue because " ++ chem.label ++ " (" ++ chem.formula ++ ") is a base. Bases accept protons (OH⁻), which causes red litmus to change colour."
          verdict := "BASE CONFIRMED"
          color := "#38bdf8" }
    else
      let typeLabel := if chem.type == "acid" then "an acid" else "a base"
      some
        { headline := "No Change — Wrong Litmus"
          body := chem.label ++ " (" ++ chem.formula ++ ") is " ++ typeLabel ++ ", but this test used " ++ paperColor ++ " Litmus. To observe a colour change, use " ++ (if chem.type == "acid" then "Blue" else "Red") ++ " Litmus with this substance."
          verdict := "NO CHANGE"
          color := "#fbbf24" }

/-- The three substance categories of the catalog. -/
inductive Category
  | acid
  | base
  | neutral
deriving DecidableEq, Repr

/-- The wire string for a category, as stored in `Chemical.type`. -/
def Category.str : Category → String
  | .acid => "acid"
  | .base => "base"
  | .neutral => "neutral"

/-- The two indicator (litmus) modes. -/
inductive Indicator
  | redLitmus
  | blueLitmus
deriving DecidableEq, Repr

/-- The wire string for an indicator mode, as stored in `reactionType`. -/
def Indicator.str : Indicator → String
  | .redLitmus => "red_litmus"
  | .blueLitmus => "blue_litmus"

/-!
Completion race: the `reaction_complete` branch of `ws.onmessage` and the
polling fallback `useEffect` both report completion. The component keeps
`reactionTypeRef` and `activeChemRef` in sync with the corresponding state
via dedicated effects, so both handlers read the current values; the model
therefore carries a single current value for each. `pollActive` models
whether the `setInterval` registered by the polling effect is still alive
(`clearInterval(pollRef.current)` sets it to false); a cleared interval
never fires its callback again. `pollRequests` counts the
`GET /reactions/status/` calls actually issued.
-/

/-- State read and written by the two completion-reporting paths. -/
structure CompState where
  activeChem : Option Chemical
  reactionType : Option String
  revealData : Option Reveal
  pollActive : Bool
  pollRequests : Nat
deriving DecidableEq, Repr

/-- The `reaction_complete` branch of `ws.onmessage`: clear the poll
interval, then set `revealData` from the message snapshots, falling back
to the current refs (`msg.chemical || activeChemRef.current`,
`msg.reaction_type || reactionTypeRef.current`). There is no guard on an
already-set `revealData`. -/
def onReactionComplete (s : CompState) (mchem : Option Chemical) (mrt : Option String) :
    CompState :=
  { s with
    pollActive := false
    revealData := buildRevealMessage (jsOrChem mchem s.activeChem) (jsOrStr mrt s.reactionType) }

/-- One firing of the polling fallback interval callback. If the interval
has been cleared the callback does not run at all. Otherwise a
`GET /reactions/status/` is issued; the early-return guard
`if (revealData) ...` inside the callback reads the `revealData` binding
captured by the mount-time closure (the effect has an empty dependency
list), which is the initial `null`, so it never triggers and is not
modelled as a branch. A failed request (`getOk = false`) is ignored; on
`data.complete` the interval is cleared and `revealData` is set with the
same snapshot fallback as the push path. -/
def onPollTick (s : CompState) (getOk : Bool) (complete : Bool)
    (mchem : Option Chemical) (mrt : Option String) : CompState :=
  if !s.pollActive then s
  else
    let s1 := { s with pollRequests := s.pollRequests + 1 }
    if !getOk then s1
    else if complete then
      { s1 with
        pollActive := false
        revealData :=
          buildRevealMessage (jsOrChem mchem s1.activeChem) (jsOrStr mrt s1.reactionType) }
    else s1

/-- A sample acid from the catalog. -/
def hcl : Chemical := { id := "HCl", label := "Hydrochloric Acid", formula := "HCl", type := "acid" }

/-- A sample base from the catalog. -/
def naoh : Chemical := { id := "NaOH", label := "Sodium Hydroxide", formula := "NaOH", type := "base" }

/-- A session that has selected HCl under blue litmus, with the poll alive
and no outcome yet. -/
def c2start : CompState :=
  { activeChem := some hcl
    reactionType := some "blue_litmus"
    revealData := none
    pollActive := true
    pollRequests := 0 }

/-- A session with red litmus known but no substance selected, poll alive,
no outcome yet. -/
def c10state : CompState :=
  { activeChem := none
    reactionType := some "red_litmus"
    revealData := none
    pollActive := true
    pollRequests := 0 }

/-- Parameters of one firing of the polling interval: whether the GET
succeeded, the reported completion flag, and the optional snapshots. -/
structure PollTick where
  getOk : Bool
  complete : Bool
  mchem : Option Chemical
  mrt : Option String
deriving Repr

/-- Run a sequence of poll-interval firings. -/
def runPollTicks (s : CompState) (ts : List PollTick) : CompState :=
  ts.foldl (fun st t => onPollTick st t.getOk t.complete t.mchem t.mrt) s

/-- The three mutually exclusive display states derived by the render
path: the reveal banner when `revealData` is set, otherwise the hint
panel when both an active substance and an indicator mode are known,
otherwise the idle stream. -/
inductive Display
  | idle
  | hint (h : Hint)
  | revealed (r : Reveal)
deriving DecidableEq, Repr

/-- The display state derived from a completion-model state, following
the render guards `reactionHint && !revealData` and `revealData` in
Lab.jsx. -/
def displayState (s : CompState) : Display :=
  match s.revealData with
  | some r => .revealed r
  | none =>
    match getReactionHint (s.activeChem.map Chemical.type) s.reactionType with
    | some h => .hint h
    | none => .idle

/-!
Teardown: three exit paths funnel into teardown logic. `handleBack`
(explicit navigation) and the cleanup of the `beforeunload` effect
(component disposal) are guarded by the one-shot `stopCalled` ref and
issue `api.post('/reactions/stop/')`; the `beforeunload` listener itself
fires `navigator.sendBeacon` to the same stop endpoint with no guard.
The cleanup of the mount effect calls `stopPipeline()` unconditionally;
`stopPipeline` is idempotent because it nulls `frameTimerRef`, `wsRef`
and `streamRef` as it releases them. `trackStops` counts the times the
camera tracks are actually stopped (the camera release taking effect),
`stopPosts` the axios stop POSTs, `beacons` the sendBeacon stop
notifications.
-/

/-- Teardown-relevant state of the mounted component. -/
structure TdState where
  stopCalled : Bool
  pollActive : Bool
  frameTimer : Bool
  wsConn : Bool
  stream : Bool
  listener : Bool
  stopPosts : Nat
  beacons : Nat
  trackStops : Nat
deriving DecidableEq, Repr

/-- Embedding of `stopPipeline` (Lab.jsx): clear the frame timer if set,
close and null the WebSocket if set, stop the camera tracks and null the
stream if set. Each branch nulls its ref, so a second call is a no-op. -/
def stopPipeline (s : TdState) : TdState :=
  let s1 := if s.frameTimer then { s with frameTimer := false } else s
  let s2 := if s1.wsConn then { s1 with wsConn := false } else s1
  if s2.stream then { s2 with stream := false, trackStops := s2.trackStops + 1 } else s2

/-- The three teardown triggers. -/
inductive TdEvent
  | back
  | unload
  | unmount
deriving DecidableEq, Repr

/-- Embedding of `handleBack`: one-shot guard on `stopCalled`, then clear
the poll interval, stop the pipeline, and POST `/reactions/stop/`. -/
def handleBack (s : TdState) : TdState :=
  if s.stopCalled then s
  else
    let s1 := stopPipeline { s with stopCalled := true, pollActive := false }
    { s1 with stopPosts := s1.stopPosts + 1 }

/-- Embedding of the `beforeunload` listener: while attached it fires a
`sendBeacon` stop notification, with no `stopCalled` guard. -/
def onBeforeUnload (s : TdState) : TdState :=
  if s.listener then { s with beacons := s.beacons + 1 } else s

/-- Embedding of component disposal: React runs the effect cleanups — the
mount effect cleanup calls `stopPipeline()` unconditionally, the polling
effect cleanup clears the interval, and the `beforeunload` effect cleanup
removes the listener and runs the one-shot guarded teardown (clear poll,
stop pipeline, POST stop). -/
def onUnmountCleanup (s : TdState) : TdState :=
  let s1 := stopPipeline s
  let s2 := { s1 with pollActive := false, listener := false }
  if s2.stopCalled then s2
  else
    let s3 := stopPipeline { s2 with stopCalled := true, pollActive := false }
    { s3 with stopPosts := s3.stopPosts + 1 }

/-- One teardown trigger step. -/
def tdStep (s : TdState) : TdEvent → TdState
  | .back => handleBack s
  | .unload => onBeforeUnload s
  | .unmount => onUnmountCleanup s

/-- Run a sequence of teardown triggers. -/
def tdRun (s : TdState) (es : List TdEvent) : TdState := es.foldl tdStep s

/-- The mounted session before any teardown trigger: pipeline running,
poll alive, listener attached, no stop notification yet. -/
def tdInit : TdState :=
  { stopCalled := false
    pollActive := true
    frameTimer := true
    wsConn := true
    stream := true
    listener := true
    stopPosts := 0
    beacons := 0
    trackStops := 0 }

/-- Number of `unload` events that occur before the first `unmount` in a
trigger sequence (the `beforeunload` listener is removed on unmount). -/
def unloadsWhileMounted : List TdEvent → Nat
  | [] => 0
  | .unload :: es => unloadsWhileMounted es + 1
  | .unmount :: _ => 0
  | .back :: es => unloadsWhileMounted es

/-- Teardown invariant: the stop POST happens only once `stopCalled` is
latched and at most once; the camera release takes effect only once the
stream ref is nulled and at most once. -/
def TdInv (s : TdState) : Prop :=
  (s.stopCalled = false → s.stopPosts = 0) ∧ s.stopPosts ≤ 1
    ∧ (s.stream = true → s.trackStops = 0) ∧ s.trackStops ≤ 1

/-!
Frame-send cadence: `setInterval(sendFrame, 66)` ticks; `sendFrame`
returns immediately unless `wsReady` is set, the socket is OPEN and no
previous encode-and-send is still in flight (`sendingRef`). A started
send either fails at `toBlob` (null blob) or resolves its `arrayBuffer`,
transmitting the frame only if the socket is still OPEN; both completions
clear `sendingRef`. There is no queue anywhere: a skipped tick leaves no
trace beyond the tick count.
-/

/-- State of the frame-send cadence. `inFlight` counts encode-and-send
operations started but not yet completed; in the code it is represented
by `sendingRef` being set. -/
structure FrameState where
  wsReady : Bool
  wsOpen : Bool
  sending : Bool
  inFlight : Nat
  ticks : Nat
  framesSent : Nat
deriving DecidableEq, Repr

/-- Events of the frame-send cadence: an interval tick, a `toBlob`
failure (null blob), the completion of a started send (`stillOpen` tells
whether the socket was still OPEN at `ws.send` time), and the socket
leaving the OPEN state. -/
inductive FrameEvent
  | tick
  | blobFail
  | sendDone (stillOpen : Bool)
  | socketClosed
deriving DecidableEq, Repr

/-- One step of the frame-send cadence. A tick while a send is in flight
(or while the socket is not ready) is skipped outright — nothing is
queued. The completion events are no-ops when no send is in flight, since
the code only registers one callback chain per started send. -/
def frameStep (s : FrameState) : FrameEvent → FrameState
  | .tick =>
    let s1 := { s with ticks := s.ticks + 1 }
    if !s1.wsReady || !s1.wsOpen || s1.sending then s1
    else { s1 with sending := true, inFlight := s1.inFlight + 1 }
  | .blobFail =>
    if s.sending then { s with sending := false, inFlight := s.inFlight - 1 } else s
  | .sendDone stillOpen =>
    if s.sending then
      { s with
        sending := false
        inFlight := s.inFlight - 1
        framesSent := if stillOpen then s.framesSent + 1 else s.framesSent }
    else s
  | .socketClosed => { s with wsReady := false, wsOpen := false }

/-- Run a sequence of cadence events. -/
def framesRun (s : FrameState) (es : List FrameEvent) : FrameState := es.foldl frameStep s

/-- The cadence state right after `ws.onopen` started the interval. -/
def frameInit : FrameState :=
  { wsReady := true, wsOpen := true, sending := false, inFlight := 0, ticks := 0, framesSent := 0 }

/-- Backpressure invariant: the in-flight count mirrors the sending flag
(so it never exceeds one), and frames sent plus the in-flight operation
never exceed the ticks that fired. -/
def FrameInv (s : FrameState) : Prop :=
  s.inFlight = (if s.sending then 1 else 0) ∧ s.framesSent + s.inFlight ≤ s.ticks

/-!
Replay-on-open: `wsSend` drops any control command while the socket is
not OPEN, so commands issued during the connecting phase are lost on the
wire; `ws.onopen` compensates by replaying the current indicator mode
(`set_reaction`) and then the current selection (`set_chemical`) from the
refs, in that order, before starting the frame interval. The sync effect
on `reactionType` and the `handleSelectChemical` success path are the two
places that send setup commands through `wsSend`.
-/

/-- An outbound control command on the Transport. -/
inductive OutMsg
  | setReaction (rt : String)
  | setChemical (id : String)
deriving DecidableEq, Repr

/-- State of the replay-on-open mechanism: socket phase, the current
indicator mode and selection (state and refs agree), and the ordered log
of control commands actually transmitted. -/
structure ReplayState where
  wsOpen : Bool
  reactionType : Option String
  activeChem : Option Chemical
  sentLog : List OutMsg
deriving DecidableEq, Repr

/-- Embedding of `wsSend`: transmit only if the socket is OPEN. -/
def wsSendCmd (s : ReplayState) (m : OutMsg) : ReplayState :=
  if s.wsOpen then { s with sentLog := s.sentLog ++ [m] } else s

/-- Setup events that can happen while the socket is still connecting:
the `GET /reactions/current/` response resolving (the sync effect then
pushes `set_reaction` through `wsSend` when the mode is truthy), and a
successful substance selection (which pushes `set_chemical` through
`wsSend`). -/
inductive SetupEvent
  | currentResolved (mrt : Option String)
  | selectOk (c : Chemical)
deriving Repr

/-- One setup step. -/
def setupStep (s : ReplayState) : SetupEvent → ReplayState
  | .currentResolved mrt =>
    let s1 := { s with reactionType := mrt }
    match mrt with
    | some rt => if rt == "" then s1 else wsSendCmd s1 (.setReaction rt)
    | none => s1
  | .selectOk c =>
    wsSendCmd { s with activeChem := some c } (.setChemical c.id)

/-- Run a sequence of setup events. -/
def setupRun (s : ReplayState) (es : List SetupEvent) : ReplayState := es.foldl setupStep s

/-- Embedding of `ws.onopen`: the socket becomes OPEN, then the current
indicator mode is sent if truthy, then the current selection is sent if
set (indicator before substance), each directly via `ws.send`. -/
def onOpen (s : ReplayState) : ReplayState :=
  let s0 := { s with wsOpen := true }
  let s1 :=
    match s0.reactionType with
    | some rt =>
      if rt == "" then s0 else { s0 with sentLog := s0.sentLog ++ [OutMsg.setReaction rt] }
    | none => s0
  match s1.activeChem with
  | some ac => { s1 with sentLog := s1.sentLog ++ [OutMsg.setChemical ac.id] }
  | none => s1

/-- The replay state at mount: socket connecting, nothing known, nothing
sent. -/
def replayInit : ReplayState :=
  { wsOpen := false, reactionType := none, activeChem := none, sentLog := [] }

/-!
Substance selection: `handleSelectChemical` bails out while another
selection is pending or after the reveal; otherwise it marks the clicked
substance as loading, POSTs `/reactions/set-chemical/`, and only on
success mutates `activeId`/`activeChem` and pushes `set_chemical` over
the open socket. The `finally` clause clears the loading mark on every
path that issued the POST.
-/

/-- State touched by `handleSelectChemical`. -/
structure SelState where
  loadingChem : Option String
  revealData : Option Reveal
  activeId : Option String
  activeChem : Option Chemical
  wsOpen : Bool
  sentLog : List OutMsg
deriving DecidableEq, Repr

/-- Embedding of `handleSelectChemical` for one completed click, with
`postOk` the outcome of the `POST /reactions/set-chemical/` call. -/
def handleSelectChemical (s : SelState) (chem : Chemical) (postOk : Bool) : SelState :=
  if s.loadingChem.isSome || s.revealData.isSome then s
  else
    let s1 := { s with loadingChem := some chem.id, revealData := none }
    if postOk then
      let s2 := { s1 with activeId := some chem.id, activeChem := some chem }
      let s3 :=
        if s2.wsOpen then { s2 with sentLog := s2.sentLog ++ [OutMsg.setChemical chem.id] }
        else s2
      { s3 with loadingChem := none }
    else
      { s1 with loadingChem := none }

/-- A session idle with NaOH already the active selection. -/
def selNaOH : SelState :=
  { loadingChem := none
    revealData := none
    activeId := some "NaOH"
    activeChem := some naoh
    wsOpen := true
    sentLog := [] }

/-!
Connection status: `wsStatus` starts at connecting; `ws.onopen` sets it
to live, `ws.onerror` to error, `ws.onclose` to error (also clearing
`wsReady`). `startPipeline` is invoked exactly once, from the mount
effect; no handler ever constructs another WebSocket, so `socketsOpened`
counts 1 for the whole session whatever the transport does.
-/

/-- The Connection Status values rendered by the component. -/
inductive WsStatus
  | connecting
  | live
  | error
deriving DecidableEq, Repr

/-- Transport lifecycle state of the session. -/
structure ConnState where
  wsStatus : WsStatus
  wsReady : Bool
  socketsOpened : Nat
deriving DecidableEq, Repr

/-- Transport lifecycle events delivered to the handlers. A given
WebSocket fires `open` at most once and never after `error`/`close`. -/
inductive WsEvent
  | opened
  | errored
  | closed
deriving DecidableEq, Repr

/-- The `ws.onopen` / `ws.onerror` / `ws.onclose` status updates. No
branch constructs a new socket. -/
def connStep (s : ConnState) : WsEvent → ConnState
  | .opened => { s with wsStatus := .live, wsReady := true }
  | .errored => { s with wsStatus := .error }
  | .closed => { s with wsStatus := .error, wsReady := false }

/-- Run a sequence of transport events. -/
def connRun (s : ConnState) (es : List WsEvent) : ConnState := es.foldl connStep s

/-- The session right after mount: `startPipeline` ran once (one socket
constructed), status connecting. -/
def connInit : ConnState := { wsStatus := .connecting, wsReady := false, socketsOpened := 1 }

/-!
Theorems.
-/

set_option maxRecDepth 8192

/-- C1: for every pair of substance category in acid, base, neutral and
indicator mode in red_litmus, blue_litmus, `getReactionHint` returns a
record whose `reacts` boolean is true exactly when (blue_litmus, acid)
or (red_litmus, base), and whose `detail` text is non-empty in all six
cases. -/
theorem C1_hint_matrix (c : Category) (i : Indicator) :
    (getReactionHint (some c.str) (some i.str)).map Hint.reacts
      = some ((i.str == "blue_litmus" && c.str == "acid")
               || (i.str == "red_litmus" && c.str == "base"))
    ∧ (getReactionHint (some c.str) (some i.str)).map (fun h => h.detail.isEmpty)
      = some false := by
  cases c <;> cases i <;> exact ⟨by decide, by decide⟩

/-- C2 counterexample: when the poll path reports completion first
(without snapshots) and a push `reaction_complete` event carrying a
different substance snapshot is processed afterwards, the push handler
overwrites the already-set Reaction Outcome: the final outcome does not
reflect the report processed first. -/
theorem C2_counterexample :
    (onPollTick c2start true true none none).revealData.isSome = true
    ∧ (onReactionComplete (onPollTick c2start true true none none) (some naoh) none).revealData
        ≠ (onPollTick c2start true true none none).revealData := by
  exact ⟨by decide, by decide⟩

/-- C2 amended: when the push event is processed first it cancels the poll
interval, so any later poll tick is a no-op and the outcome set by the
push stands; but when the poll is processed first, a later push event is
still processed and overwrites the outcome with the message built from
the push report (no exception is thrown either way, the handlers being
total). The outcome therefore reflects the first report only in the
push-first order. -/
theorem C2_amended (s : CompState) (mchem pchem : Option Chemical) (mrt prt : Option String)
    (getOk complete : Bool) :
    onPollTick (onReactionComplete s mchem mrt) getOk complete pchem prt
      = onReactionComplete s mchem mrt
    ∧ (onReactionComplete (onPollTick s getOk complete pchem prt) mchem mrt).revealData
        = buildRevealMessage (jsOrChem mchem s.activeChem) (jsOrStr mrt s.reactionType) := by
  constructor
  · simp [onPollTick, onReactionComplete]
  · rcases s with ⟨ac, rt, rd, pa, pr⟩
    cases pa <;> cases getOk <;> cases complete <;>
      simp [onPollTick, onReactionComplete]

/-- A cleared poll interval never runs its callback: `onPollTick` is the
identity once `pollActive` is false. -/
theorem pollInactive_noop (s : CompState) (h : s.pollActive = false)
    (getOk complete : Bool) (mchem : Option Chemical) (mrt : Option String) :
    onPollTick s getOk complete mchem mrt = s := by
  simp [onPollTick, h]

/-- A cleared poll interval stays silent across any sequence of would-be
firings. -/
theorem runPollTicks_inactive (ts : List PollTick) (s : CompState)
    (h : s.pollActive = false) : runPollTicks s ts = s := by
  induction ts generalizing s with
  | nil => rfl
  | cons t ts ih =>
    simp [runPollTicks] at ih ⊢
    rw [pollInactive_noop s h, ih s h]

/-- C6: processing a push `reaction_complete` event clears the poll
interval on the spot, so no poll callback fires afterwards: across any
sequence of later would-be interval firings, the count of issued
`GET /reactions/status/` requests does not grow (and the state does not
change at all). -/
theorem C6_poll_stops_after_push (s : CompState) (mchem : Option Chemical)
    (mrt : Option String) (ts : List PollTick) :
    (onReactionComplete s mchem mrt).pollActive = false
    ∧ runPollTicks (onReactionComplete s mchem mrt) ts = onReactionComplete s mchem mrt := by
  refine ⟨rfl, runPollTicks_inactive ts _ rfl⟩

/-- C8: both completion paths fill a missing substance or indicator
snapshot from the values current at the moment the report is processed
(the component maintains `activeChemRef` and `reactionTypeRef` in sync
with the state precisely so the handlers read the latest values). -/
theorem C8_snapshot_fallback_fill (s : CompState) (mchem : Option Chemical)
    (mrt : Option String) (hpoll : s.pollActive = true) :
    (onReactionComplete s none none).revealData
      = buildRevealMessage s.activeChem s.reactionType
    ∧ (onReactionComplete s none mrt).revealData
      = buildRevealMessage s.activeChem (jsOrStr mrt s.reactionType)
    ∧ (onReactionComplete s mchem none).revealData
      = buildRevealMessage (jsOrChem mchem s.activeChem) s.reactionType
    ∧ (onPollTick s true true none none).revealData
      = buildRevealMessage s.activeChem s.reactionType := by
  refine ⟨rfl, rfl, rfl, ?_⟩
  simp [onPollTick, hpoll, jsOrChem, jsOrStr]

/-- Witness for C8 at the concrete HCl / blue-litmus session. -/
theorem C8_snapshot_fallback_fill_witness :
    (onReactionComplete c2start none none).revealData
      = buildRevealMessage c2start.activeChem c2start.reactionType
    ∧ (onReactionComplete c2start none (some "red_litmus")).revealData
      = buildRevealMessage c2start.activeChem
          (jsOrStr (some "red_litmus") c2start.reactionType)
    ∧ (onReactionComplete c2start (some naoh) none).revealData
      = buildRevealMessage (jsOrChem (some naoh) c2start.activeChem) c2start.reactionType
    ∧ (onPollTick c2start true true none none).revealData
      = buildRevealMessage c2start.activeChem c2start.reactionType :=
  C8_snapshot_fallback_fill c2start (some naoh) (some "red_litmus") rfl

/-- C10: a completion report carrying no substance snapshot, processed
while no substance is selected, makes `buildRevealMessage` return none,
so the Reaction Outcome stays unset and the derived display state is
unchanged (idle or hint), on both the push and the poll path. -/
theorem C10_snapshotless_completion_dropped (rt mrt : Option String) (s : CompState)
    (hchem : s.activeChem = none) (hrev : s.revealData = none) :
    buildRevealMessage none rt = none
    ∧ (onReactionComplete s none mrt).revealData = none
    ∧ displayState (onReactionComplete s none mrt) = displayState s
    ∧ (onPollTick s true true none mrt).revealData = none
    ∧ displayState (onPollTick s true true none mrt) = displayState s := by
  rcases s with ⟨ac, rty, rd, pa, pr⟩
  simp only at hchem hrev
  subst hchem hrev
  cases pa <;>
    simp [onReactionComplete, onPollTick, displayState, buildRevealMessage, jsOrChem]

/-- Witness for C10 at a concrete session with red litmus known but no
substance selected. -/
theorem C10_snapshotless_completion_dropped_witness :
    buildRevealMessage none (some "red_litmus") = none
    ∧ (onReactionComplete c10state none none).revealData = none
    ∧ displayState (onReactionComplete c10state none none) = displayState c10state
    ∧ (onPollTick c10state true true none none).revealData = none
    ∧ displayState (onPollTick c10state true true none none) = displayState c10state :=
  C10_snapshotless_completion_dropped (some "red_litmus") none c10state rfl rfl

/-- Every teardown trigger preserves the teardown invariant: a stop POST
is issued only on the `stopCalled` latch transition, and the camera
tracks are stopped only while the stream ref is still set. -/
theorem tdStep_inv (s : TdState) (e : TdEvent) (h : TdInv s) : TdInv (tdStep s e) := by
  rcases s with ⟨sc, pa, ft, wc, st, li, sp, bc, tr⟩
  cases e <;> cases sc <;> cases ft <;> cases wc <;> cases st <;> cases li <;>
    simp [TdInv, tdStep, handleBack, onBeforeUnload, onUnmountCleanup, stopPipeline] at h ⊢ <;>
    omega

/-- The teardown invariant holds along any sequence of triggers. -/
theorem tdRun_inv (es : List TdEvent) (s : TdState) (h : TdInv s) : TdInv (tdRun s es) := by
  induction es generalizing s with
  | nil => exact h
  | cons t es ih => exact ih (tdStep s t) (tdStep_inv s t h)

/-- How each trigger affects the `beforeunload` listener and the beacon
count: navigation leaves both alone, an unload event fires one beacon
while the listener is attached, disposal removes the listener without
firing a beacon. -/
theorem tdStep_listener_beacons (s : TdState) :
    ((tdStep s .back).listener = s.listener ∧ (tdStep s .back).beacons = s.beacons)
    ∧ ((tdStep s .unload).listener = s.listener
        ∧ (tdStep s .unload).beacons = s.beacons + (if s.listener then 1 else 0))
    ∧ ((tdStep s .unmount).listener = false ∧ (tdStep s .unmount).beacons = s.beacons) := by
  rcases s with ⟨sc, pa, ft, wc, st, li, sp, bc, tr⟩
  cases sc <;> cases ft <;> cases wc <;> cases st <;> cases li <;>
    simp [tdStep, handleBack, onBeforeUnload, onUnmountCleanup, stopPipeline]

/-- Once the listener is removed, no further trigger fires a beacon. -/
theorem tdRun_beacons_unlistened (es : List TdEvent) (s : TdState)
    (h : s.listener = false) :
    (tdRun s es).beacons = s.beacons ∧ (tdRun s es).listener = false := by
  induction es generalizing s with
  | nil => exact ⟨rfl, h⟩
  | cons t es ih =>
    obtain ⟨⟨bl, bb⟩, ⟨ul, ub⟩, ⟨ml, mb⟩⟩ := tdStep_listener_beacons s
    have key : (tdStep s t).beacons = s.beacons ∧ (tdStep s t).listener = false := by
      cases t
      · exact ⟨bb, bl.trans h⟩
      · exact ⟨by rw [ub, h]; simp, ul.trans h⟩
      · exact ⟨mb, ml⟩
    have hrec := ih (tdStep s t) key.2
    simp only [tdRun, List.foldl] at hrec ⊢
    exact ⟨hrec.1.trans key.1, hrec.2⟩

/-- While the listener is attached, the beacon count grows by exactly the
number of unload events that occur before the first disposal. -/
theorem tdRun_beacons_listened (es : List TdEvent) (s : TdState)
    (h : s.listener = true) :
    (tdRun s es).beacons = s.beacons + unloadsWhileMounted es := by
  induction es generalizing s with
  | nil => rfl
  | cons t es ih =>
    obtain ⟨⟨bl, bb⟩, ⟨ul, ub⟩, ⟨ml, mb⟩⟩ := tdStep_listener_beacons s
    cases t
    · have := ih (tdStep s .back) (bl.trans h)
      simpa [tdRun, unloadsWhileMounted, bb] using this
    · have := ih (tdStep s .unload) (ul.trans h)
      have hb : (tdStep s .unload).beacons = s.beacons + 1 := by rw [ub, h]; simp
      simp only [tdRun, List.foldl] at this ⊢
      rw [this, hb, unloadsWhileMounted]
      omega
    · have := tdRun_beacons_unlistened es (tdStep s .unmount) ml
      simp only [tdRun, List.foldl] at this ⊢
      rw [this.1, mb, unloadsWhileMounted]
      omega

/-- C3 counterexample: firing back-navigation, then a page-unload event,
then component disposal issues two stop notifications to the stop
endpoint — the guarded axios POST from `handleBack` plus the unguarded
`sendBeacon` from the unload listener — not exactly one; the camera
release does take effect exactly once. -/
theorem C3_counterexample :
    (tdRun tdInit [.back, .unload, .unmount]).stopPosts
      + (tdRun tdInit [.back, .unload, .unmount]).beacons = 2
    ∧ (tdRun tdInit [.back, .unload, .unmount]).stopPosts = 1
    ∧ (tdRun tdInit [.back, .unload, .unmount]).trackStops = 1 := by
  exact ⟨by decide, by decide, by decide⟩

/-- C3 amended: across every interleaving of the three triggers, at most
one guarded `POST /reactions/stop/` is issued (the one-shot `stopCalled`
flag covers the navigation and disposal paths) and the camera release
takes effect at most once (`stopPipeline` nulls its refs); however the
unload listener additionally fires one unguarded `sendBeacon` stop
notification per unload event that occurs before disposal, so the total
number of stop notifications is the guarded POST count plus that beacon
count, which can exceed one. -/
theorem C3_amended (es : List TdEvent) :
    (tdRun tdInit es).stopPosts ≤ 1
    ∧ (tdRun tdInit es).trackStops ≤ 1
    ∧ (tdRun tdInit es).beacons = unloadsWhileMounted es := by
  have hinv := tdRun_inv es tdInit (by simp [TdInv, tdInit])
  obtain ⟨_, h2, _, h4⟩ := hinv
  refine ⟨h2, h4, ?_⟩
  have := tdRun_beacons_listened es tdInit rfl
  simpa [tdInit] using this

/-- Every cadence event preserves the backpressure invariant. -/
theorem frameStep_inv (s : FrameState) (e : FrameEvent) (h : FrameInv s) :
    FrameInv (frameStep s e) := by
  rcases s with ⟨wr, wo, sd, inf, tk, fs⟩
  obtain ⟨h1, h2⟩ := h
  cases e with
  | tick =>
    cases wr <;> cases wo <;> cases sd <;>
      simp [FrameInv, frameStep] at h1 h2 ⊢ <;> omega
  | blobFail =>
    cases sd <;> simp [FrameInv, frameStep] at h1 h2 ⊢ <;> omega
  | sendDone stillOpen =>
    cases stillOpen <;> cases sd <;>
      simp [FrameInv, frameStep] at h1 h2 ⊢ <;> omega
  | socketClosed => exact ⟨h1, h2⟩

/-- The backpressure invariant holds along any sequence of cadence
events. -/
theorem framesRun_inv (es : List FrameEvent) (s : FrameState) (h : FrameInv s) :
    FrameInv (framesRun s es) := by
  induction es generalizing s with
  | nil => exact h
  | cons e es ih => exact ih (frameStep s e) (frameStep_inv s e h)

/-- C4: frame-send backpressure. Along every sequence of cadence ticks
and send completions, at most one encode-and-send is in flight at any
time and the total frames sent never exceed the total ticks; moreover a
tick that fires while a send is still in flight only counts the tick —
the frame is skipped, nothing is queued and no send is started. -/
theorem C4_backpressure (es : List FrameEvent) (s : FrameState) (h : s.sending = true) :
    (framesRun frameInit es).inFlight ≤ 1
    ∧ (framesRun frameInit es).framesSent ≤ (framesRun frameInit es).ticks
    ∧ frameStep s .tick = { s with ticks := s.ticks + 1 } := by
  obtain ⟨h1, h2⟩ := framesRun_inv es frameInit (by simp [FrameInv, frameInit])
  refine ⟨?_, by omega, by simp [frameStep, h]⟩
  rw [h1]; split <;> omega

/-- A cadence state with a send still in flight after one tick. -/
def c4busy : FrameState :=
  { wsReady := true, wsOpen := true, sending := true, inFlight := 1, ticks := 1, framesSent := 0 }

/-- Witness for C4 at a one-tick trace and the concrete busy state. -/
theorem C4_backpressure_witness :
    (framesRun frameInit [.tick]).inFlight ≤ 1
    ∧ (framesRun frameInit [.tick]).framesSent ≤ (framesRun frameInit [.tick]).ticks
    ∧ frameStep c4busy .tick = { c4busy with ticks := c4busy.ticks + 1 } :=
  C4_backpressure [.tick] c4busy rfl

/-- While the socket is still connecting, setup events transmit nothing:
`wsSend` drops every command on a non-OPEN socket, and the socket phase
does not change. -/
theorem setupRun_connecting (es : List SetupEvent) (s : ReplayState) (h : s.wsOpen = false) :
    (setupRun s es).wsOpen = false ∧ (setupRun s es).sentLog = s.sentLog := by
  induction es generalizing s with
  | nil => exact ⟨h, rfl⟩
  | cons e es ih =>
    have step : (setupStep s e).wsOpen = false ∧ (setupStep s e).sentLog = s.sentLog := by
      cases e with
      | currentResolved mrt =>
        cases mrt with
        | none => exact ⟨h, rfl⟩
        | some rt => cases hrt : (rt == "") <;> simp [setupStep, wsSendCmd, h, hrt]
      | selectOk c => simp [setupStep, wsSendCmd, h]
    have hrec := ih (setupStep s e) step.1
    simp only [setupRun, List.foldl] at hrec ⊢
    exact ⟨hrec.1, hrec.2.trans step.2⟩

/-- C5: replay-on-open. For any setup state established while the socket
is still connecting (indicator mode resolved to a truthy value, some
substance selected), nothing has been transmitted before the open
transition, and the transition transmits exactly the `set_reaction`
command followed by the `set_chemical` command — indicator before
substance, each exactly once, with no duplicates. -/
theorem C5_replay_on_open (pre : List SetupEvent) (rt : String) (c : Chemical)
    (hrt : (setupRun replayInit pre).reactionType = some rt) (hne : rt ≠ "")
    (hc : (setupRun replayInit pre).activeChem = some c) :
    (setupRun replayInit pre).sentLog = []
    ∧ (onOpen (setupRun replayInit pre)).sentLog
        = [OutMsg.setReaction rt, OutMsg.setChemical c.id] := by
  have hbase := setupRun_connecting pre replayInit rfl
  have hne2 : (rt == "") = false := by simpa using hne
  have hlog : (setupRun replayInit pre).sentLog = [] := hbase.2
  refine ⟨hlog, ?_⟩
  simp [onOpen, hrt, hc, hlog, hne2]

/-- Witness for C5: resolve red litmus, then select HCl, all while
connecting; on open the wire sees exactly `set_reaction` then
`set_chemical`. -/
theorem C5_replay_on_open_witness :
    (setupRun replayInit [.currentResolved (some "red_litmus"), .selectOk hcl]).sentLog = []
    ∧ (onOpen (setupRun replayInit
          [.currentResolved (some "red_litmus"), .selectOk hcl])).sentLog
        = [OutMsg.setReaction "red_litmus", OutMsg.setChemical hcl.id] :=
  C5_replay_on_open [.currentResolved (some "red_litmus"), .selectOk hcl]
    "red_litmus" hcl rfl (by decide) rfl

/-- C7: when a selection click actually issues the POST (no other click
pending, no reveal yet) and the POST fails, the prior selection — both
the active identifier and the stored substance record — is retained
unchanged, and the loading mark is cleared by the `finally` clause
whether the POST succeeds or fails. -/
theorem C7_selection_failure_keeps_prior (s : SelState) (chem : Chemical) (postOk : Bool)
    (hl : s.loadingChem = none) (hr : s.revealData = none) :
    (handleSelectChemical s chem postOk).loadingChem = none
    ∧ (handleSelectChemical s chem false).activeId = s.activeId
    ∧ (handleSelectChemical s chem false).activeChem = s.activeChem
    ∧ (handleSelectChemical s chem false).sentLog = s.sentLog := by
  rcases s with ⟨lc, rd, ai, ac, wo, lg⟩
  simp only at hl hr
  subst hl hr
  cases postOk <;> cases wo <;> simp [handleSelectChemical]

/-- Witness for C7: with NaOH active, a failing selection POST for HCl
leaves NaOH active and no loading mark dangling. -/
theorem C7_selection_failure_keeps_prior_witness :
    (handleSelectChemical selNaOH hcl false).loadingChem = none
    ∧ (handleSelectChemical selNaOH hcl false).activeId = selNaOH.activeId
    ∧ (handleSelectChemical selNaOH hcl false).activeChem = selNaOH.activeChem
    ∧ (handleSelectChemical selNaOH hcl false).sentLog = selNaOH.sentLog :=
  C7_selection_failure_keeps_prior selNaOH hcl false rfl rfl

/-- After an error or close event the status is error, and it stays error
across any further events that do not include an open (a WebSocket never
fires open after error/close). -/
theorem connRun_error_persists (post : List WsEvent) (s : ConnState)
    (h : s.wsStatus = .error) (hpost : WsEvent.opened ∉ post) :
    (connRun s post).wsStatus = .error := by
  induction post generalizing s with
  | nil => exact h
  | cons e es ih =>
    have hne : e ≠ .opened := fun he => hpost (he ▸ List.mem_cons_self e es)
    have hstep : (connStep s e).wsStatus = .error := by
      cases e with
      | opened => exact absurd rfl hne
      | errored => rfl
      | closed => rfl
    exact ih (connStep s e) hstep (fun hm => hpost (List.mem_cons_of_mem e hm))

/-- No transport event constructs a new socket. -/
theorem connRun_sockets (es : List WsEvent) (s : ConnState) :
    (connRun s es).socketsOpened = s.socketsOpened := by
  induction es generalizing s with
  | nil => rfl
  | cons e es ih =>
    have : (connStep s e).socketsOpened = s.socketsOpened := by cases e <;> rfl
    simpa [connRun, this] using ih (connStep s e)

/-- C9: leaving the live state is terminal. An underlying error or close
event makes the Connection Status error; it remains error across any
later events of the same socket (which never re-fires open), no step ever
returns the status to connecting, and no reconnect is ever attempted —
exactly one socket is constructed for the session no matter what the
transport does. -/
theorem C9_closed_terminal (s : ConnState) (e : WsEvent) (post es : List WsEvent)
    (he : e = .errored ∨ e = .closed) (hpost : WsEvent.opened ∉ post) :
    (connStep s e).wsStatus = .error
    ∧ (connRun (connStep s e) post).wsStatus = .error
    ∧ (∀ e2, (connStep s e2).wsStatus ≠ .connecting)
    ∧ (connRun connInit es).socketsOpened = 1 := by
  have herr : (connStep s e).wsStatus = .error := by
    rcases he with h | h <;> subst h <;> rfl
  refine ⟨herr, connRun_error_persists post _ herr hpost, ?_, connRun_sockets es connInit⟩
  intro e2
  cases e2 <;> simp [connStep]

/-- Witness for C9: an errored socket followed by a close event and
arbitrary further error events stays in error status, on the session
whose single socket saw open then error. -/
theorem C9_closed_terminal_witness :
    (connStep connInit .errored).wsStatus = .error
    ∧ (connRun (connStep connInit .errored) [.closed, .errored]).wsStatus = .error
    ∧ (∀ e2, (connStep connInit e2).wsStatus ≠ .connecting)
    ∧ (connRun connInit [.opened, .errored]).socketsOpened = 1 :=
  C9_closed_terminal connInit .errored [.closed, .errored] [.opened, .errored]
    (Or.inl rfl) (by decide)

end ChemLabs
